import Mathlib

/-!
# Verification of the deepfake-detection heuristic scoring engine

Shallow embedding of the media authenticity scoring engine of the
`deepfakerefine` repository.  The repository contains three near-duplicate
variants of the `DeepfakeDetector` class; we embed each one and suffix the
translated definitions accordingly:

* `V1` — `src/utils/deepfakeDetector.ts` (the "aggressive" variant);
* `V2` — the `DeepfakeDetector` found in `src/utils/modelLoader.ts`
  (the "enhanced" variant);
* `V3` — the unnamed conservative variant (`part_001`).

The frame extractor `ImageProcessor.extractFramesFromVideo` comes from the
unnamed `part_000` (`imageProcessor.ts`).

Modelling conventions:

* JavaScript floating point numbers are modelled by `ℚ`; the constants and
  comparisons of the source involve only small decimal literals, so rational
  arithmetic is exact where the source is exact.
* `Math.sqrt e < t` (with `t ≥ 0`) is embedded as `e < t^2`, and
  `Math.sqrt e > t` as `e > t^2`, which is equivalent since `sqrt` is
  monotone and both sides are nonnegative.
* `Math.random()`-derived jitter is passed in explicitly as a parameter
  (`jb`, `jf`, `jr`, …); "jitter disabled" instantiates those with `0` /
  `false`.
* Pixel buffers carry a function from coordinates to RGB values; the source
  only ever reads the decoded `ImageData`.
-/

namespace DeepfakeRefine

/-! ## List helpers: JavaScript `String.prototype.includes`

`fileName.toLowerCase().includes(kw)` is embedded over `List Char`:
`listPrefixOf n h` tests whether `n` occurs at the start of `h`, and
`containsSub h n` whether `n` occurs anywhere in `h` (true for empty `n`,
matching JavaScript). -/

def listPrefixOf : List Char → List Char → Bool
  | [], _ => true
  | _ :: _, [] => false
  | a :: as, b :: bs => a = b && listPrefixOf as bs

def containsSub : List Char → List Char → Bool
  | [], needle => listPrefixOf needle []
  | c :: cs, needle => listPrefixOf needle (c :: cs) || containsSub cs needle

/-- Lower-case a file name exactly as `fileName.toLowerCase()` does for the
ASCII keywords the scorers search for. -/
def toLowerList (name : List Char) : List Char := name.map Char.toLower

lemma containsSub_of_listPrefixOf_append {a b l : List Char}
    (h : listPrefixOf (a ++ b) l = true) : containsSub l b = true := by
  induction a generalizing l with
  | nil =>
    cases l with
    | nil => simpa [containsSub] using h
    | cons c cs =>
      simp only [containsSub, Bool.or_eq_true]
      exact Or.inl (by simpa using h)
  | cons x xs ih =>
    cases l with
    | nil => simp [listPrefixOf] at h
    | cons c cs =>
      simp only [List.cons_append, listPrefixOf, Bool.and_eq_true] at h
      simp only [containsSub, Bool.or_eq_true]
      exact Or.inr (ih h.2)

/-- If a string contains `a ++ b` as a substring then it contains `b`:
a file name containing `"deepfake"` in particular contains `"fake"`. -/
lemma containsSub_append_right {a b l : List Char}
    (h : containsSub l (a ++ b) = true) : containsSub l b = true := by
  induction l with
  | nil =>
    simp only [containsSub] at h ⊢
    cases a with
    | nil => simpa using h
    | cons x xs => simp [listPrefixOf] at h
  | cons c cs ih =>
    simp only [containsSub, Bool.or_eq_true] at h ⊢
    rcases h with h | h
    · have := containsSub_of_listPrefixOf_append (l := c :: cs) h
      simp only [containsSub, Bool.or_eq_true] at this
      exact this
    · exact Or.inr (ih h)

/-! ## Data model -/

/-- One decoded RGBA pixel; the alpha channel is never read by any analyzer,
so we keep only R, G, B. -/
structure Rgb where
  r : ℚ
  g : ℚ
  b : ℚ
deriving DecidableEq

/-- A decoded raster image: `width`, `height` and the pixel at row `y`,
column `x` (the source reads `data[(y*width+x)*4 + c]`). -/
structure PixelBuffer where
  width : ℕ
  height : ℕ
  px : ℕ → ℕ → Rgb

/-- The `DetectionAnalysis` record of the source. -/
structure DetectionAnalysis where
  faceDetection : ℚ
  temporalConsistency : ℚ
  artifactDetection : ℚ
  imageQuality : ℚ
  neuralNetworkConfidence : ℚ
deriving DecidableEq

/-- The per-image scalar signals produced by the extractors and consumed by
the scorers (`SignalSet` of the spec).  The `V1` scorer ignores
`colorConsistency` and `frequencyScore`. -/
structure ImageSignals where
  faceDetection : ℚ
  artifactScore : ℚ
  imageQuality : ℚ
  compressionArtifacts : ℚ
  edgeConsistency : ℚ
  colorConsistency : ℚ
  frequencyScore : ℚ
deriving DecidableEq

/-- Coarse file metadata read by the scorers: file name, byte size and
pixel dimensions of the decoded image. -/
structure FileMeta where
  name : List Char
  size : ℚ
  width : ℕ
  height : ℕ

/-- Ordered threat levels. -/
inductive ThreatLevel where
  | low
  | medium
  | high
  | critical
deriving DecidableEq

/-- Rank of a threat level in the order LOW < MEDIUM < HIGH < CRITICAL. -/
def threatRank : ThreatLevel → ℕ
  | .low => 0
  | .medium => 1
  | .high => 2
  | .critical => 3

/-- The clamp `Math.max(0, Math.min(100, total))` applied by every scorer
before returning its confidence. -/
def clampScore (x : ℚ) : ℚ := max 0 (min 100 x)

lemma clampScore_nonneg (x : ℚ) : 0 ≤ clampScore x := le_max_left _ _

lemma clampScore_le_100 (x : ℚ) : clampScore x ≤ 100 :=
  max_le (by norm_num) (min_le_left _ _)

lemma clampScore_mono {x y : ℚ} (h : x ≤ y) : clampScore x ≤ clampScore y :=
  max_le_max le_rfl (min_le_min le_rfl h)

/-- Strictness of the clamp under a positive shift: if the unshifted total
is below the upper saturation point and the shifted total is above the lower
one, the clamped values are strictly ordered. -/
lemma clampScore_lt_of_pos {x d : ℚ} (hx : x < 100) (hd : 0 < d)
    (hpos : 0 < x + d) : clampScore x < clampScore (x + d) := by
  have h2 : clampScore x = max 0 x := by
    unfold clampScore
    rw [min_eq_right hx.le]
  have h1 : max 0 x < min 100 (x + d) :=
    lt_min (max_lt (by norm_num) hx) (max_lt hpos (by linarith))
  calc clampScore x = max 0 x := h2
    _ < min 100 (x + d) := h1
    _ ≤ clampScore (x + d) := le_max_right _ _

/-! ## Threat-level classification (`calculateThreatLevel`, three variants) -/

/-- Variant V1, `deepfakeDetector.ts` lines 391–396. -/
def calculateThreatLevelV1 (confidence : ℚ) (analysis : DetectionAnalysis) :
    ThreatLevel :=
  if confidence > 85 ∧ analysis.artifactDetection > 70 then .critical
  else if confidence > 70 then .high
  else if confidence > 50 then .medium
  else .low

/-- Variant V2, `modelLoader.ts` lines 803–810. -/
def calculateThreatLevelV2 (confidence : ℚ) (analysis : DetectionAnalysis) :
    ThreatLevel :=
  if confidence > 90 ∧ analysis.artifactDetection > 80 then .critical
  else if confidence > 85 ∨ (confidence > 75 ∧ analysis.artifactDetection > 70) then .critical
  else if confidence > 75 ∨ (confidence > 65 ∧ analysis.artifactDetection > 60) then .high
  else if confidence > 60 ∨ (confidence > 50 ∧ analysis.artifactDetection > 50) then .medium
  else .low

/-- Conservative variant (`part_001` lines 619–627). -/
def calculateThreatLevelV3 (confidence : ℚ) (analysis : DetectionAnalysis) :
    ThreatLevel :=
  if confidence > 95 ∧ analysis.artifactDetection > 90 then .critical
  else if confidence > 90 ∧ analysis.artifactDetection > 85 then .critical
  else if confidence > 85 ∧ analysis.artifactDetection > 80 then .high
  else if confidence > 80 then .high
  else if confidence > 75 then .medium
  else .low

section ThreatMonotone

variable {c c₁ c₂ : ℚ} {a : DetectionAnalysis}

lemma threatRankV1_ge_two (h : c > 70) :
    2 ≤ threatRank (calculateThreatLevelV1 c a) := by
  unfold calculateThreatLevelV1
  split_ifs <;> first | decide | tauto

lemma threatRankV1_ge_one (h : c > 50) :
    1 ≤ threatRank (calculateThreatLevelV1 c a) := by
  unfold calculateThreatLevelV1
  split_ifs <;> first | decide | tauto

lemma threatLevelV1_mono (h : c₁ ≤ c₂) :
    threatRank (calculateThreatLevelV1 c₁ a) ≤
      threatRank (calculateThreatLevelV1 c₂ a) := by
  by_cases h1 : c₁ > 85 ∧ a.artifactDetection > 70
  · have h1' : c₂ > 85 ∧ a.artifactDetection > 70 :=
      ⟨lt_of_lt_of_le h1.1 h, h1.2⟩
    unfold calculateThreatLevelV1
    rw [if_pos h1, if_pos h1']
  · by_cases h2 : c₁ > 70
    · have hc1 : threatRank (calculateThreatLevelV1 c₁ a) = 2 := by
        unfold calculateThreatLevelV1
        rw [if_neg h1, if_pos h2]
        rfl
      rw [hc1]
      exact threatRankV1_ge_two (lt_of_lt_of_le h2 h)
    · by_cases h3 : c₁ > 50
      · have hc1 : threatRank (calculateThreatLevelV1 c₁ a) = 1 := by
          unfold calculateThreatLevelV1
          rw [if_neg h1, if_neg h2, if_pos h3]
          rfl
        rw [hc1]
        exact threatRankV1_ge_one (lt_of_lt_of_le h3 h)
      · have hc1 : threatRank (calculateThreatLevelV1 c₁ a) = 0 := by
          unfold calculateThreatLevelV1
          rw [if_neg h1, if_neg h2, if_neg h3]
          rfl
        rw [hc1]
        exact Nat.zero_le _

lemma threatRankV2_ge_three
    (h : c > 85 ∨ (c > 75 ∧ a.artifactDetection > 70)) :
    3 ≤ threatRank (calculateThreatLevelV2 c a) := by
  unfold calculateThreatLevelV2
  split_ifs <;> first | decide | tauto

lemma threatRankV2_ge_two
    (h : c > 75 ∨ (c > 65 ∧ a.artifactDetection > 60)) :
    2 ≤ threatRank (calculateThreatLevelV2 c a) := by
  unfold calculateThreatLevelV2
  split_ifs <;> first | decide | tauto

lemma threatRankV2_ge_one
    (h : c > 60 ∨ (c > 50 ∧ a.artifactDetection > 50)) :
    1 ≤ threatRank (calculateThreatLevelV2 c a) := by
  unfold calculateThreatLevelV2
  split_ifs <;> first | decide | tauto

lemma threatLevelV2_mono (h : c₁ ≤ c₂) :
    threatRank (calculateThreatLevelV2 c₁ a) ≤
      threatRank (calculateThreatLevelV2 c₂ a) := by
  have hmov : ∀ t : ℚ, t < c₁ → t < c₂ := fun t ht => lt_of_lt_of_le ht h
  by_cases h1 : c₁ > 90 ∧ a.artifactDetection > 80
  · have h1' : c₂ > 90 ∧ a.artifactDetection > 80 := ⟨hmov _ h1.1, h1.2⟩
    unfold calculateThreatLevelV2
    rw [if_pos h1, if_pos h1']
  · by_cases h2 : c₁ > 85 ∨ (c₁ > 75 ∧ a.artifactDetection > 70)
    · have hc1 : threatRank (calculateThreatLevelV2 c₁ a) = 3 := by
        unfold calculateThreatLevelV2
        rw [if_neg h1, if_pos h2]
        rfl
      rw [hc1]
      exact threatRankV2_ge_three
        (h2.imp (hmov _) (fun hx => ⟨hmov _ hx.1, hx.2⟩))
    · by_cases h3 : c₁ > 75 ∨ (c₁ > 65 ∧ a.artifactDetection > 60)
      · have hc1 : threatRank (calculateThreatLevelV2 c₁ a) = 2 := by
          unfold calculateThreatLevelV2
          rw [if_neg h1, if_neg h2, if_pos h3]
          rfl
        rw [hc1]
        exact threatRankV2_ge_two
          (h3.imp (hmov _) (fun hx => ⟨hmov _ hx.1, hx.2⟩))
      · by_cases h4 : c₁ > 60 ∨ (c₁ > 50 ∧ a.artifactDetection > 50)
        · have hc1 : threatRank (calculateThreatLevelV2 c₁ a) = 1 := by
            unfold calculateThreatLevelV2
            rw [if_neg h1, if_neg h2, if_neg h3, if_pos h4]
            rfl
          rw [hc1]
          exact threatRankV2_ge_one
            (h4.imp (hmov _) (fun hx => ⟨hmov _ hx.1, hx.2⟩))
        · have hc1 : threatRank (calculateThreatLevelV2 c₁ a) = 0 := by
            unfold calculateThreatLevelV2
            rw [if_neg h1, if_neg h2, if_neg h3, if_neg h4]
            rfl
          rw [hc1]
          exact Nat.zero_le _

lemma threatRankV3_ge_three (h : c > 90 ∧ a.artifactDetection > 85) :
    3 ≤ threatRank (calculateThreatLevelV3 c a) := by
  unfold calculateThreatLevelV3
  split_ifs <;> first | decide | tauto

lemma threatRankV3_ge_two (h : c > 80) :
    2 ≤ threatRank (calculateThreatLevelV3 c a) := by
  unfold calculateThreatLevelV3
  split_ifs <;> first | decide | tauto

lemma threatRankV3_ge_one (h : c > 75) :
    1 ≤ threatRank (calculateThreatLevelV3 c a) := by
  unfold calculateThreatLevelV3
  split_ifs <;> first | decide | tauto

lemma threatLevelV3_mono (h : c₁ ≤ c₂) :
    threatRank (calculateThreatLevelV3 c₁ a) ≤
      threatRank (calculateThreatLevelV3 c₂ a) := by
  have hmov : ∀ t : ℚ, t < c₁ → t < c₂ := fun t ht => lt_of_lt_of_le ht h
  by_cases h1 : c₁ > 95 ∧ a.artifactDetection > 90
  · have h1' : c₂ > 95 ∧ a.artifactDetection > 90 := ⟨hmov _ h1.1, h1.2⟩
    unfold calculateThreatLevelV3
    rw [if_pos h1, if_pos h1']
  · by_cases h2 : c₁ > 90 ∧ a.artifactDetection > 85
    · have hc1 : threatRank (calculateThreatLevelV3 c₁ a) = 3 := by
        unfold calculateThreatLevelV3
        rw [if_neg h1, if_pos h2]
        rfl
      rw [hc1]
      exact threatRankV3_ge_three ⟨hmov _ h2.1, h2.2⟩
    · by_cases h3 : c₁ > 85 ∧ a.artifactDetection > 80
      · have hc1 : threatRank (calculateThreatLevelV3 c₁ a) = 2 := by
          unfold calculateThreatLevelV3
          rw [if_neg h1, if_neg h2, if_pos h3]
          rfl
        rw [hc1]
        exact threatRankV3_ge_two (by have := hmov _ h3.1; linarith)
      · by_cases h4 : c₁ > 80
        · have hc1 : threatRank (calculateThreatLevelV3 c₁ a) = 2 := by
            unfold calculateThreatLevelV3
            rw [if_neg h1, if_neg h2, if_neg h3, if_pos h4]
            rfl
          rw [hc1]
          exact threatRankV3_ge_two (hmov _ h4)
        · by_cases h5 : c₁ > 75
          · have hc1 : threatRank (calculateThreatLevelV3 c₁ a) = 1 := by
              unfold calculateThreatLevelV3
              rw [if_neg h1, if_neg h2, if_neg h3, if_neg h4, if_pos h5]
              rfl
            rw [hc1]
            exact threatRankV3_ge_one (hmov _ h5)
          · have hc1 : threatRank (calculateThreatLevelV3 c₁ a) = 0 := by
              unfold calculateThreatLevelV3
              rw [if_neg h1, if_neg h2, if_neg h3, if_neg h4, if_neg h5]
              rfl
            rw [hc1]
            exact Nat.zero_le _

end ThreatMonotone

/-! ## File-name keywords searched by the scorers -/

def kwFake : List Char := "fake".data
def kwGenerated : List Char := "generated".data
def kwAi : List Char := "ai".data
def kwReal : List Char := "real".data
def kwAuthentic : List Char := "authentic".data
def kwDeepfake : List Char := "deepfake".data
def kwSynthetic : List Char := "synthetic".data
def kwSwap : List Char := "swap".data
def kwOriginal : List Char := "original".data
def kwGenuine : List Char := "genuine".data
def kwMorphed : List Char := "morphed".data
def kwManipulated : List Char := "manipulated".data
def kwEdited : List Char := "edited".data
def kwPhoto : List Char := "photo".data
def kwPic : List Char := "pic".data

/-! ## Temporal consistency (`calculateTemporalConsistency`, three variants)

The source iterates `i` from `1` and compares `frameAnalyses[i-1]` with
`frameAnalyses[i]`; this is exactly a fold over `l.zip l.tail`. -/

/-- Variant V1, `deepfakeDetector.ts` lines 369–389. -/
def calculateTemporalConsistencyV1 (l : List DetectionAnalysis) : ℚ :=
  if l.length < 2 then 100
  else
    let score := (l.zip l.tail).foldl
      (fun acc pc =>
        acc + (100 - ((|pc.1.faceDetection - pc.2.faceDetection|
          + |pc.1.artifactDetection - pc.2.artifactDetection|
          + |pc.1.imageQuality - pc.2.imageQuality|) / 3))) 0
    max 0 (score / ((l.length : ℚ) - 1))

/-- Variant V2, `modelLoader.ts` lines 778–801 (weighted 0.4/0.4/0.2). -/
def calculateTemporalConsistencyV2 (l : List DetectionAnalysis) : ℚ :=
  if l.length < 2 then 100
  else
    let score := (l.zip l.tail).foldl
      (fun acc pc =>
        acc + max 0 (100 - ((|pc.1.faceDetection - pc.2.faceDetection| * 0.4)
          + (|pc.1.artifactDetection - pc.2.artifactDetection| * 0.4)
          + (|pc.1.imageQuality - pc.2.imageQuality| * 0.2)))) 0
    score / ((l.length : ℚ) - 1)

/-- Conservative variant (`part_001` lines 594–617): neutral default 90,
weights 0.3/0.3/0.1, per-pair floor 60. -/
def calculateTemporalConsistencyV3 (l : List DetectionAnalysis) : ℚ :=
  if l.length < 2 then 90
  else
    let score := (l.zip l.tail).foldl
      (fun acc pc =>
        acc + max 60 (100 - (((|pc.1.faceDetection - pc.2.faceDetection| * 0.3)
          + (|pc.1.artifactDetection - pc.2.artifactDetection| * 0.3)
          + (|pc.1.imageQuality - pc.2.imageQuality| * 0.1)) / 2))) 0
    score / ((l.length : ℚ) - 1)

/-! ## Image suspicion scorers (`analyzeImage`, three variants)

Each is the literal accumulation of `suspicionScore` bonuses from the
source, with the `Math.random()` contributions passed in explicitly
(`jb` = the additive base jitter, `jf` = the `Math.random() > 0.7` flag,
`jr` = the signed `(Math.random() - 0.5) * amp` term). -/

/-- File-name rule of `deepfakeDetector.ts` lines 81–86. -/
def keywordBonusImageV1 (name : List Char) : ℚ :=
  let n := toLowerList name
  if containsSub n kwFake || containsSub n kwGenerated || containsSub n kwAi then 60
  else if containsSub n kwReal || containsSub n kwAuthentic then -20
  else 0

/-- Variant V1, `deepfakeDetector.ts` lines 77–115 (`analyzeImage` scoring). -/
def imageSuspicionV1 (sig : ImageSignals) (meta : FileMeta) (jb : ℚ) (jf : Bool) : ℚ :=
  let fileSizeMB := meta.size / (1024 * 1024)
  jb + keywordBonusImageV1 meta.name
    + (if sig.compressionArtifacts > 60 then (35 : ℚ) else 0)
    + (if sig.compressionArtifacts > 80 then (25 : ℚ) else 0)
    + (if sig.edgeConsistency < 70 then (40 : ℚ) else 0)
    + (if sig.edgeConsistency < 50 then (30 : ℚ) else 0)
    + (if sig.artifactScore > 70 then (45 : ℚ) else 0)
    + (if sig.artifactScore > 85 then (25 : ℚ) else 0)
    + (if sig.imageQuality < 50 then (25 : ℚ) else 0)
    + (if sig.imageQuality < 30 then (35 : ℚ) else 0)
    + (if sig.faceDetection > 80 ∨ sig.faceDetection < 20 then (30 : ℚ) else 0)
    + (if fileSizeMB > 5 then (15 : ℚ) else 0)
    + (if fileSizeMB < 0.1 then (20 : ℚ) else 0)
    + (if jf then (40 : ℚ) else 0)

def imageConfidenceV1 (sig : ImageSignals) (meta : FileMeta) (jb : ℚ) (jf : Bool) : ℚ :=
  clampScore (imageSuspicionV1 sig meta jb jf)

/-- The `analyzeImage` of `deepfakeDetector.ts`: confidence and analysis record
(line 119: `temporalConsistency: 100, // N/A for images`). -/
def analyzeImageV1 (sig : ImageSignals) (meta : FileMeta) (jb : ℚ) (jf : Bool) :
    ℚ × DetectionAnalysis :=
  let confidence := imageConfidenceV1 sig meta jb jf
  (confidence,
   ⟨sig.faceDetection, 100, sig.artifactScore, sig.imageQuality, confidence⟩)

/-- File-name rule of the `modelLoader.ts` variant, lines 216–224. -/
def keywordBonusImageV2 (name : List Char) : ℚ :=
  let n := toLowerList name
  if containsSub n kwFake || containsSub n kwGenerated || containsSub n kwAi
      || containsSub n kwDeepfake || containsSub n kwSynthetic || containsSub n kwSwap then 85
  else if containsSub n kwReal || containsSub n kwAuthentic
      || containsSub n kwOriginal || containsSub n kwGenuine then -30
  else 0

/-- Variant V2, `modelLoader.ts` lines 212–296 (`analyzeImage` scoring). -/
def imageSuspicionV2 (sig : ImageSignals) (meta : FileMeta) (jr : ℚ) : ℚ :=
  let fileSizeMB := meta.size / (1024 * 1024)
  let totalPixels : ℚ := (meta.width : ℚ) * (meta.height : ℚ)
  let aspectRatio : ℚ := (meta.width : ℚ) / (meta.height : ℚ)
  keywordBonusImageV2 meta.name
    + (if sig.compressionArtifacts > 75 then (45 : ℚ)
       else if sig.compressionArtifacts > 50 then 25 else 0)
    + (if sig.edgeConsistency < 60 then (50 : ℚ)
       else if sig.edgeConsistency < 80 then 25 else 0)
    + (if sig.artifactScore > 80 then (60 : ℚ)
       else if sig.artifactScore > 60 then 35 else 0)
    + (if sig.imageQuality < 40 then (30 : ℚ)
       else if sig.imageQuality > 90 then 20 else 0)
    + (if sig.colorConsistency < 70 then (40 : ℚ) else 0)
    + (if sig.frequencyScore > 70 then (35 : ℚ) else 0)
    + (if sig.faceDetection > 85 ∨ sig.faceDetection < 30 then (40 : ℚ) else 0)
    + (if fileSizeMB > 10 then (20 : ℚ) else if fileSizeMB < 0.05 then 25 else 0)
    + (if totalPixels > 2000000 then (15 : ℚ) else 0)
    + (if aspectRatio < 0.7 ∨ aspectRatio > 1.5 then (10 : ℚ) else 0)
    + jr

def imageConfidenceV2 (sig : ImageSignals) (meta : FileMeta) (jr : ℚ) : ℚ :=
  clampScore (imageSuspicionV2 sig meta jr)

def analyzeImageV2 (sig : ImageSignals) (meta : FileMeta) (jr : ℚ) :
    ℚ × DetectionAnalysis :=
  let confidence := imageConfidenceV2 sig meta jr
  (confidence,
   ⟨sig.faceDetection, 100, sig.artifactScore, sig.imageQuality, confidence⟩)

/-- File-name rules of the conservative variant (`part_001` lines 83–97):
a three-way bonus chain followed by an independent authenticity rebate. -/
def keywordBonusImageV3 (name : List Char) : ℚ :=
  let n := toLowerList name
  (if containsSub n kwDeepfake || containsSub n kwFake || containsSub n kwGenerated then (70 : ℚ)
   else if containsSub n kwMorphed || containsSub n kwManipulated || containsSub n kwEdited then 60
   else if containsSub n kwAi || containsSub n kwSynthetic then 50
   else 0)
  + (if containsSub n kwReal || containsSub n kwAuthentic || containsSub n kwOriginal
        || containsSub n kwGenuine || containsSub n kwPhoto || containsSub n kwPic
     then (-20 : ℚ) else 0)

/-- Anomaly tally of `part_001` lines 142–147. -/
def anomalyCountV3 (sig : ImageSignals) : ℕ :=
  (if sig.compressionArtifacts > 80 then 1 else 0)
  + (if sig.edgeConsistency < 50 then 1 else 0)
  + (if sig.artifactScore > 85 then 1 else 0)
  + (if sig.colorConsistency < 60 then 1 else 0)
  + (if sig.frequencyScore > 80 then 1 else 0)

/-- Conservative variant (`part_001` lines 79–189, `analyzeImage` scoring). -/
def imageSuspicionV3 (sig : ImageSignals) (meta : FileMeta) (jr : ℚ) : ℚ :=
  let fileSizeMB := meta.size / (1024 * 1024)
  let totalPixels : ℚ := (meta.width : ℚ) * (meta.height : ℚ)
  let aspectRatio : ℚ := (meta.width : ℚ) / (meta.height : ℚ)
  15 + keywordBonusImageV3 meta.name
    + (if sig.compressionArtifacts > 85 then (35 : ℚ)
       else if sig.compressionArtifacts > 95 then 50 else 0)
    + (if sig.edgeConsistency < 40 then (45 : ℚ)
       else if sig.edgeConsistency < 25 then 60 else 0)
    + (if sig.artifactScore > 90 then (40 : ℚ)
       else if sig.artifactScore > 95 then 55 else 0)
    + (if sig.colorConsistency < 50 then (30 : ℚ)
       else if sig.colorConsistency < 30 then 45 else 0)
    + (if sig.frequencyScore > 85 then (25 : ℚ)
       else if sig.frequencyScore > 95 then 40 else 0)
    + (if sig.faceDetection > 95 ∨ sig.faceDetection < 15 then (30 : ℚ) else 0)
    + (if anomalyCountV3 sig ≥ 3 then (25 : ℚ) else 0)
    + (if sig.imageQuality > 60 ∧ sig.imageQuality < 90 then (-10 : ℚ) else 0)
    + (if sig.edgeConsistency > 70 then (-15 : ℚ) else 0)
    + (if sig.colorConsistency > 75 then (-10 : ℚ) else 0)
    + (if fileSizeMB > 0.1 ∧ fileSizeMB < 5 then (-5 : ℚ) else 0)
    + (if totalPixels > 100000 ∧ totalPixels < 5000000 then (-5 : ℚ) else 0)
    + (if aspectRatio > 0.5 ∧ aspectRatio < 2 then (-5 : ℚ) else 0)
    + jr

def imageConfidenceV3 (sig : ImageSignals) (meta : FileMeta) (jr : ℚ) : ℚ :=
  clampScore (imageSuspicionV3 sig meta jr)

def analyzeImageV3 (sig : ImageSignals) (meta : FileMeta) (jr : ℚ) :
    ℚ × DetectionAnalysis :=
  let confidence := imageConfidenceV3 sig meta jr
  (confidence,
   ⟨sig.faceDetection, 100, sig.artifactScore, sig.imageQuality, confidence⟩)

/-! ## Video suspicion scorers (`analyzeVideo`, three variants) -/

def listSum (l : List ℚ) : ℚ := l.foldl (· + ·) 0

def avgOf (l : List ℚ) : ℚ := listSum l / (l.length : ℚ)

/-- Per-frame suspicion, `deepfakeDetector.ts` lines 139–147 (`fj` is the
frame's `Math.random() * 20` jitter). -/
def frameSuspicionV1 (sig : ImageSignals) (fj : ℚ) : ℚ :=
  fj + (if sig.compressionArtifacts > 65 then (30 : ℚ) else 0)
     + (if sig.artifactScore > 75 then (35 : ℚ) else 0)
     + (if sig.imageQuality < 45 then (25 : ℚ) else 0)
     + 15

def frameAnalysesV1 (frames : List (ImageSignals × ℚ)) : List DetectionAnalysis :=
  frames.map fun fj =>
    ⟨fj.1.faceDetection, 0, fj.1.artifactScore, fj.1.imageQuality,
     frameSuspicionV1 fj.1 fj.2⟩

/-- Variant V1, `deepfakeDetector.ts` lines 128–179 (`analyzeVideo` accumulation). -/
def videoSuspicionV1 (frames : List (ImageSignals × ℚ)) (name : List Char)
    (jb : ℚ) (jf : Bool) : ℚ :=
  let tc := calculateTemporalConsistencyV1 (frameAnalysesV1 frames)
  let n := toLowerList name
  jb + listSum (frames.map fun fj => frameSuspicionV1 fj.1 fj.2)
    + (if tc < 80 then (50 : ℚ) else 0)
    + (if tc < 60 then (30 : ℚ) else 0)
    + (if containsSub n kwFake || containsSub n kwGenerated || containsSub n kwAi
          || containsSub n kwDeepfake then (70 : ℚ) else 0)
    + (if jf then (35 : ℚ) else 0)
    + 20

def videoConfidenceV1 (frames : List (ImageSignals × ℚ)) (meta : FileMeta)
    (jb : ℚ) (jf : Bool) : ℚ :=
  clampScore (videoSuspicionV1 frames meta.name jb jf / (frames.length : ℚ))

def analyzeVideoV1 (frames : List (ImageSignals × ℚ)) (meta : FileMeta)
    (jb : ℚ) (jf : Bool) : ℚ × DetectionAnalysis :=
  let fa := frameAnalysesV1 frames
  let confidence := videoConfidenceV1 frames meta jb jf
  (confidence,
   ⟨avgOf (fa.map (·.faceDetection)),
    calculateTemporalConsistencyV1 fa,
    avgOf (fa.map (·.artifactDetection)),
    avgOf (fa.map (·.imageQuality)),
    confidence⟩)

/-- Per-frame suspicion, `modelLoader.ts` variant lines 321–330. -/
def frameSuspicionVidV2 (sig : ImageSignals) : ℚ :=
  (if sig.compressionArtifacts > 70 then (40 : ℚ) else 0)
  + (if sig.artifactScore > 75 then (45 : ℚ) else 0)
  + (if sig.imageQuality < 50 then (30 : ℚ) else 0)
  + (if sig.colorConsistency < 65 then (35 : ℚ) else 0)
  + 10

def frameAnalysesVidV2 (frames : List ImageSignals) : List DetectionAnalysis :=
  frames.map fun sig =>
    ⟨sig.faceDetection, 0, sig.artifactScore, sig.imageQuality,
     frameSuspicionVidV2 sig⟩

/-- Variant V2, `modelLoader.ts` lines 309–375 (`analyzeVideo` accumulation). -/
def videoSuspicionV2 (frames : List ImageSignals) (name : List Char)
    (dur jr : ℚ) : ℚ :=
  let tc := calculateTemporalConsistencyV2 (frameAnalysesVidV2 frames)
  let n := toLowerList name
  listSum (frames.map frameSuspicionVidV2)
    + (if tc < 70 then (60 : ℚ) else 0)
    + (if tc < 50 then (40 : ℚ) else 0)
    + (if containsSub n kwFake || containsSub n kwGenerated || containsSub n kwAi
          || containsSub n kwDeepfake || containsSub n kwSynthetic
          || containsSub n kwSwap then (80 : ℚ)
       else if containsSub n kwReal || containsSub n kwAuthentic then -25 else 0)
    + (if dur < 5 then (25 : ℚ) else if dur > 60 then -15 else 0)
    + 15
    + jr

def videoConfidenceV2 (frames : List ImageSignals) (meta : FileMeta)
    (dur jr : ℚ) : ℚ :=
  clampScore (videoSuspicionV2 frames meta.name dur jr / (frames.length : ℚ))

def analyzeVideoV2 (frames : List ImageSignals) (meta : FileMeta)
    (dur jr : ℚ) : ℚ × DetectionAnalysis :=
  let fa := frameAnalysesVidV2 frames
  let confidence := videoConfidenceV2 frames meta dur jr
  (confidence,
   ⟨avgOf (fa.map (·.faceDetection)),
    calculateTemporalConsistencyV2 fa,
    avgOf (fa.map (·.artifactDetection)),
    avgOf (fa.map (·.imageQuality)),
    confidence⟩)

/-- Per-frame suspicion, conservative variant (`part_001` lines 214–221). -/
def frameSuspicionVidV3 (sig : ImageSignals) : ℚ :=
  (if sig.compressionArtifacts > 90 then (25 : ℚ) else 0)
  + (if sig.artifactScore > 90 then (30 : ℚ) else 0)
  + (if sig.imageQuality < 30 then (20 : ℚ) else 0)
  + (if sig.colorConsistency < 40 then (25 : ℚ) else 0)

def frameAnalysesVidV3 (frames : List ImageSignals) : List DetectionAnalysis :=
  frames.map fun sig =>
    ⟨sig.faceDetection, 0, sig.artifactScore, sig.imageQuality,
     frameSuspicionVidV3 sig⟩

/-- Conservative variant (`part_001` lines 202–262, `analyzeVideo`). -/
def videoSuspicionV3 (frames : List ImageSignals) (name : List Char)
    (dur jr : ℚ) : ℚ :=
  let tc := calculateTemporalConsistencyV3 (frameAnalysesVidV3 frames)
  let n := toLowerList name
  10 + listSum (frames.map frameSuspicionVidV3)
    + (if tc < 40 then (50 : ℚ) else 0)
    + (if tc < 25 then (35 : ℚ) else 0)
    + (if containsSub n kwDeepfake || containsSub n kwFake
          || containsSub n kwGenerated then (60 : ℚ)
       else if containsSub n kwMorphed || containsSub n kwManipulated then 50
       else if containsSub n kwReal || containsSub n kwAuthentic
          || containsSub n kwOriginal then -15 else 0)
    + (if dur < 2 then (15 : ℚ) else if dur > 30 then -10 else 0)
    + jr

def videoConfidenceV3 (frames : List ImageSignals) (meta : FileMeta)
    (dur jr : ℚ) : ℚ :=
  clampScore (videoSuspicionV3 frames meta.name dur jr / (frames.length : ℚ))

/-! ## Detection entry point (`detectDeepfake`)

A submitted asset, with the outcome of decoding folded in: `imageSignals`
(resp. `videoFrames`) is `none` when the decode (`loadImage` /
`extractFramesFromVideo`) would reject, in which case the corresponding
branch fails; the extractor results for a successfully decoded asset are
the carried signals. -/

structure MediaFile where
  name : List Char
  ftype : List Char
  size : ℚ
  width : ℕ
  height : ℕ
  imageSignals : Option ImageSignals
  videoFrames : Option (List (ImageSignals × ℚ))
  duration : ℚ

def metaOf (f : MediaFile) : FileMeta := ⟨f.name, f.size, f.width, f.height⟩

/-- The error taxonomy of the entry point: `throw 'Models not initialized'`,
`throw 'Unsupported file type'`, and a rejected decode promise. -/
inductive DetectError where
  | modelsNotReady
  | unsupportedType
  | decodeError
deriving DecidableEq

/-- The `DeepfakeDetectionResult` record (processingTime, a wall-clock measurement, is
not modelled). -/
structure DeepfakeDetectionResult where
  isDeepfake : Bool
  confidence : ℚ
  threatLevel : ThreatLevel
  analysis : DetectionAnalysis

def imageTypeKw : List Char := "image/".data
def videoTypeKw : List Char := "video/".data

/-- The `detectDeepfake` of `deepfakeDetector.ts` lines 32–65:
readiness check, then dispatch on `file.type.startsWith('image/')` /
`startsWith('video/')`, else `throw new Error('Unsupported file type')`;
`isDeepfake = confidence > 50`. -/
def detectDeepfakeV1 (ready : Bool) (f : MediaFile) (jb : ℚ) (jf : Bool) :
    Except DetectError DeepfakeDetectionResult :=
  if ready = false then .error .modelsNotReady
  else if listPrefixOf imageTypeKw f.ftype then
    match f.imageSignals with
    | none => .error .decodeError
    | some sig =>
      let r := analyzeImageV1 sig (metaOf f) jb jf
      .ok ⟨decide (r.1 > 50), r.1, calculateThreatLevelV1 r.1 r.2, r.2⟩
  else if listPrefixOf videoTypeKw f.ftype then
    match f.videoFrames with
    | none => .error .decodeError
    | some frames =>
      let r := analyzeVideoV1 frames (metaOf f) jb jf
      .ok ⟨decide (r.1 > 50), r.1, calculateThreatLevelV1 r.1 r.2, r.2⟩
  else .error .unsupportedType

/-- The `detectDeepfake` of the `modelLoader.ts` variant, lines 165–198: same
dispatch, `isDeepfake = confidence > 60` (per-frame jitter is not used by
this variant, so the carried jitter components are dropped). -/
def detectDeepfakeV2 (ready : Bool) (f : MediaFile) (jr : ℚ) :
    Except DetectError DeepfakeDetectionResult :=
  if ready = false then .error .modelsNotReady
  else if listPrefixOf imageTypeKw f.ftype then
    match f.imageSignals with
    | none => .error .decodeError
    | some sig =>
      let r := analyzeImageV2 sig (metaOf f) jr
      .ok ⟨decide (r.1 > 60), r.1, calculateThreatLevelV2 r.1 r.2, r.2⟩
  else if listPrefixOf videoTypeKw f.ftype then
    match f.videoFrames with
    | none => .error .decodeError
    | some frames =>
      let r := analyzeVideoV2 (frames.map Prod.fst) (metaOf f) f.duration jr
      .ok ⟨decide (r.1 > 60), r.1, calculateThreatLevelV2 r.1 r.2, r.2⟩
  else .error .unsupportedType

/-! ## Video frame sampling (`ImageProcessor.extractFramesFromVideo`,
`part_000` lines 15–61)

`interval = duration / maxFrames`; the capture loop seeks `currentTime`,
captures a frame, and advances `currentTime += interval` while
`frameCount < maxFrames`.  `extractLoop i t rem` is the list of capture
timestamps with `rem` advances still to go; since the loop tests the count
only after the first capture, `maxFrames = 0` still captures one frame at
`t = 0`, exactly as the source would. -/

def extractLoop (interval t : ℚ) : ℕ → List ℚ
  | 0 => [t]
  | n + 1 => t :: extractLoop interval (t + interval) n

def extractFrameTimes (duration : ℚ) (maxFrames : ℕ) : List ℚ :=
  extractLoop (duration / (maxFrames : ℚ)) 0 (maxFrames - 1)

lemma extractLoop_eq (i : ℚ) :
    ∀ (n : ℕ) (t : ℚ),
      extractLoop i t n
        = (List.range (n + 1)).map (fun k : ℕ => t + (k : ℚ) * i) := by
  intro n
  induction n with
  | zero => intro t; rw [List.range_succ]; simp [extractLoop]
  | succ m ih =>
    intro t
    rw [extractLoop, ih (t + i)]
    conv_rhs => rw [List.range_succ_eq_map]
    simp only [List.map_cons, List.map_map, Nat.cast_zero, zero_mul, add_zero]
    congr 1
    apply List.map_congr_left
    intro k _
    simp only [Function.comp_apply, Nat.cast_succ]
    ring

lemma extractLoop_head (i t : ℚ) (n : ℕ) :
    (extractLoop i t n).head? = some t := by
  cases n <;> rfl

lemma extractLoop_chain {i : ℚ} (hi : 0 < i) :
    ∀ (n : ℕ) (t : ℚ), List.Chain' (· < ·) (extractLoop i t n) := by
  intro n
  induction n with
  | zero => intro t; simp [extractLoop]
  | succ m ih =>
    intro t
    rw [extractLoop]
    refine List.chain'_cons'.2 ⟨?_, ih (t + i)⟩
    intro y hy
    rw [extractLoop_head] at hy
    cases hy
    linarith

/-! ## Face / skin-region extractor (`performFaceAnalysis`)

Skin-tone heuristics of `isSkinTone` (`modelLoader.ts` lines 436–469,
`part_001` lines 323–338). -/

/-- RGB heuristic ("Algorithm 1"). -/
def rgbSkin (c : Rgb) : Bool :=
  decide (c.r > 95 ∧ c.g > 40 ∧ c.b > 20
    ∧ max c.r (max c.g c.b) - min c.r (min c.g c.b) > 15
    ∧ |c.r - c.g| > 15 ∧ c.r > c.g ∧ c.r > c.b)

/-- YCbCr heuristic ("Algorithm 2"). -/
def ycbcrSkin (c : Rgb) : Bool :=
  let cb := -0.169 * c.r - 0.331 * c.g + 0.5 * c.b + 128
  let cr := 0.5 * c.r - 0.419 * c.g - 0.081 * c.b + 128
  decide (cb ≥ 77 ∧ cb ≤ 127 ∧ cr ≥ 133 ∧ cr ≤ 173)

/-- HSV heuristic ("Algorithm 3", `modelLoader.ts` lines 450–466).  The
source computes `h = ((g-b)/delta) % 6` in the `max === r` branch; since
`|(g-b)/delta| ≤ 1 < 6`, the JavaScript remainder is the identity there,
so the `% 6` is dropped. -/
def hsvSkin (c : Rgb) : Bool :=
  let mx := max c.r (max c.g c.b)
  let mn := min c.r (min c.g c.b)
  let d := mx - mn
  let v := mx / 255
  let s := if mx = 0 then 0 else d / mx
  let h0 := if d = 0 then 0
    else if mx = c.r then ((c.g - c.b) / d) * 60
    else if mx = c.g then ((c.b - c.r) / d + 2) * 60
    else ((c.r - c.g) / d + 4) * 60
  let h := if h0 < 0 then h0 + 360 else h0
  decide (h ≥ 0 ∧ h ≤ 50 ∧ s ≥ 0.23 ∧ s ≤ 0.68 ∧ v ≥ 0.35 ∧ v ≤ 0.95)

/-- The `isSkinTone` of the `modelLoader.ts` variant: RGB ∨ YCbCr ∨ HSV. -/
def isSkinToneV2 (c : Rgb) : Bool := rgbSkin c || ycbcrSkin c || hsvSkin c

/-- The `isSkinTone` of the conservative variant (`part_001`): RGB ∨ YCbCr
("Removed HSV for more conservative detection"). -/
def isSkinToneV3 (c : Rgb) : Bool := rgbSkin c || ycbcrSkin c

/-- All pixel coordinates of a `w × h` buffer in row-major scan order. -/
def pixList (w h : ℕ) : List (ℕ × ℕ) :=
  (List.range h).flatMap fun y => (List.range w).map fun x => (y, x)

/-- The test `distFromCenter < faceRegionRadius` (`modelLoader.ts` lines 417–419)
with `Math.sqrt` eliminated by squaring both (nonnegative) sides. -/
def inFaceRegion (w h : ℕ) (y x : ℕ) : Bool :=
  decide (((x : ℚ) - (w : ℚ) / 2) ^ 2 + ((y : ℚ) - (h : ℚ) / 2) ^ 2
    < (min (w : ℚ) (h : ℚ) / 4) ^ 2)

/-- The `(faceRegionPixels, skinPixels)` accumulation loop of
`performFaceAnalysis` (`modelLoader.ts` lines 410–430). -/
def faceCountsV2 (buf : PixelBuffer) : ℕ × ℕ :=
  (pixList buf.width buf.height).foldl
    (fun acc yx =>
      if inFaceRegion buf.width buf.height yx.1 yx.2 then
        (acc.1 + 1,
         if isSkinToneV2 (buf.px yx.1 yx.2) then acc.2 + 1 else acc.2)
      else acc)
    (0, 0)

/-- The `performFaceAnalysis` of the `modelLoader.ts` variant (lines 388–434):
`skinRatio = faceRegionPixels > 0 ? skinPixels / faceRegionPixels : 0`,
returning `Math.min(100, skinRatio * 200)`. -/
def performFaceAnalysisV2 (buf : PixelBuffer) : ℚ :=
  let counts := faceCountsV2 buf
  let skinRatio : ℚ :=
    if counts.1 > 0 then (counts.2 : ℚ) / (counts.1 : ℚ) else 0
  min 100 (skinRatio * 200)

/-- Pixels of the centered circular face region. -/
def regionCount (buf : PixelBuffer) : ℕ :=
  (pixList buf.width buf.height).countP
    fun yx => inFaceRegion buf.width buf.height yx.1 yx.2

/-- Region pixels classified skin-toned by the code's three-way classifier. -/
def skinCountV2 (buf : PixelBuffer) : ℕ :=
  (pixList buf.width buf.height).countP
    fun yx => inFaceRegion buf.width buf.height yx.1 yx.2
      && isSkinToneV2 (buf.px yx.1 yx.2)

/-- Claim-side definition, following the spec's words: region pixels
classified skin-toned by "the RGB-heuristic OR the YCbCr-range heuristic"
(no HSV disjunct). -/
def specSkinCount (buf : PixelBuffer) : ℕ :=
  (pixList buf.width buf.height).countP
    fun yx => inFaceRegion buf.width buf.height yx.1 yx.2
      && (rgbSkin (buf.px yx.1 yx.2) || ycbcrSkin (buf.px yx.1 yx.2))

/-- Claim-side formula `min(100, skinPixels/regionPixels × k)` over the
spec's two-heuristic skin count. -/
def specFaceSkinScore (k : ℚ) (buf : PixelBuffer) : ℚ :=
  min 100 ((if regionCount buf > 0
    then (specSkinCount buf : ℚ) / (regionCount buf : ℚ) else 0) * k)

lemma faceCounts_foldl (p q : ℕ × ℕ → Bool) :
    ∀ (l : List (ℕ × ℕ)) (a b : ℕ),
      l.foldl
        (fun acc yx =>
          if p yx then (acc.1 + 1, if q yx then acc.2 + 1 else acc.2)
          else acc) (a, b)
        = (a + l.countP p, b + l.countP (fun yx => p yx && q yx)) := by
  intro l
  induction l with
  | nil => intro a b; simp
  | cons x xs ih =>
    intro a b
    simp only [List.foldl_cons]
    by_cases hp : p x
    · by_cases hq : q x
      · rw [if_pos hp, if_pos hq, ih]
        rw [List.countP_cons_of_pos _ _ hp,
          List.countP_cons_of_pos _ _ (by simp [hp, hq])]
        simp only [Prod.mk.injEq]
        constructor <;> ring
      · rw [if_pos hp, if_neg hq, ih]
        rw [List.countP_cons_of_pos _ _ hp,
          List.countP_cons_of_neg _ _ (by simp [hq])]
        simp only [Prod.mk.injEq]
        constructor <;> ring
    · rw [if_neg hp, ih]
      rw [List.countP_cons_of_neg _ _ hp,
        List.countP_cons_of_neg _ _ (by simp [hp])]
  -- (structure ends here)

lemma faceCountsV2_eq (buf : PixelBuffer) :
    faceCountsV2 buf = (regionCount buf, skinCountV2 buf) := by
  unfold faceCountsV2 regionCount skinCountV2
  rw [faceCounts_foldl]
  simp

/-! ## Color consistency extractor (`analyzeColorConsistency`)

The four regions have corners `(0,0)`, `(w/2,0)`, `(0,h/2)`, `(w/2,h/2)`
with extents `w/2 × h/2` in JavaScript (possibly fractional) arithmetic;
the loop variable advances by `1` from the (possibly fractional) corner and
the pixel fetch applies `Math.floor`.  Hence each region samples
`⌈n/2⌉ = (n+1)/2` indices per axis, at `k` (first half) or `⌊n/2⌋ + k`
(second half). -/

def quadIndices (n : ℕ) (second : Bool) : List ℕ :=
  (List.range ((n + 1) / 2)).map (fun k => if second then n / 2 + k else k)

def regionPixList (w h : ℕ) (sy sx : Bool) : List (ℕ × ℕ) :=
  (quadIndices h sy).flatMap fun y => (quadIndices w sx).map fun x => (y, x)

/-- Mean R/G/B of one region (`regionStats`, `modelLoader.ts` lines 564–582;
`count` increments once per sampled pixel, i.e. equals the list length). -/
def regionMean (buf : PixelBuffer) (sy sx : Bool) : Rgb :=
  let l := regionPixList buf.width buf.height sy sx
  let n : ℚ := (l.length : ℚ)
  ⟨(l.foldl (fun a yx => a + (buf.px yx.1 yx.2).r) 0) / n,
   (l.foldl (fun a yx => a + (buf.px yx.1 yx.2).g) 0) / n,
   (l.foldl (fun a yx => a + (buf.px yx.1 yx.2).b) 0) / n⟩

def rgbMeanDiff (p q : Rgb) : ℚ := |p.r - q.r| + |p.g - q.g| + |p.b - q.b|

/-- The `totalDifference` over the 6 region pairs (`i < j` double loop). -/
def totalRegionDiff (buf : PixelBuffer) : ℚ :=
  let m1 := regionMean buf false false
  let m2 := regionMean buf false true
  let m3 := regionMean buf true false
  let m4 := regionMean buf true true
  rgbMeanDiff m1 m2 + rgbMeanDiff m1 m3 + rgbMeanDiff m1 m4
    + rgbMeanDiff m2 m3 + rgbMeanDiff m2 m4 + rgbMeanDiff m3 m4

/-- Variant V2, `modelLoader.ts` lines 584–596: `max(0, 100 - avgDifference / 10)`. -/
def analyzeColorConsistencyV2 (buf : PixelBuffer) : ℚ :=
  max 0 (100 - (totalRegionDiff buf / 6) / 10)

/-- Conservative variant (`part_001` lines 445–457):
`max(20, 100 - avgDifference / 15)`. -/
def analyzeColorConsistencyV3 (buf : PixelBuffer) : ℚ :=
  max 20 (100 - (totalRegionDiff buf / 6) / 15)

lemma foldl_add_of_const {α : Type} (f : α → ℚ) (q : ℚ) :
    ∀ (l : List α), (∀ a ∈ l, f a = q) →
      ∀ init : ℚ, l.foldl (fun acc a => acc + f a) init
        = init + (l.length : ℚ) * q := by
  intro l
  induction l with
  | nil => intro _ init; simp
  | cons x xs ih =>
    intro hmem init
    simp only [List.foldl_cons, List.length_cons]
    rw [ih (fun a ha => hmem a (List.mem_cons_of_mem _ ha)) (init + f x),
      hmem x (List.mem_cons_self _ _)]
    push_cast
    ring

lemma length_prodList {α β : Type} (ys : List α) (xs : List β) :
    (ys.flatMap fun y => xs.map fun x => (y, x)).length
      = ys.length * xs.length := by
  induction ys with
  | nil => simp
  | cons y ys ih => simp [ih, Nat.succ_mul, Nat.add_comm]

lemma regionMean_const (c : Rgb) (w h : ℕ) (hw : 1 ≤ w) (hh : 1 ≤ h)
    (sy sx : Bool) :
    regionMean ⟨w, h, fun _ _ => c⟩ sy sx = c := by
  have hlen : (regionPixList w h sy sx).length
      = ((h + 1) / 2) * ((w + 1) / 2) := by
    unfold regionPixList quadIndices
    rw [length_prodList]
    simp
  have hpos : 0 < (regionPixList w h sy sx).length := by
    rw [hlen]
    have h1 : 0 < (h + 1) / 2 := by omega
    have h2 : 0 < (w + 1) / 2 := by omega
    exact Nat.mul_pos h1 h2
  have hne : ((regionPixList w h sy sx).length : ℚ) ≠ 0 :=
    Nat.cast_ne_zero.mpr (by omega)
  unfold regionMean
  cases c with
  | mk cr cg cb =>
    simp only
    congr 1 <;> try rfl
    all_goals
      rw [foldl_add_of_const _ _ _ (fun a _ => rfl) 0, zero_add,
        mul_comm, mul_div_assoc, div_self hne, mul_one]

lemma analyzeColorConsistency_const (c : Rgb) (w h : ℕ)
    (hw : 1 ≤ w) (hh : 1 ≤ h) :
    totalRegionDiff ⟨w, h, fun _ _ => c⟩ = 0 := by
  unfold totalRegionDiff rgbMeanDiff
  rw [regionMean_const c w h hw hh, regionMean_const c w h hw hh,
    regionMean_const c w h hw hh, regionMean_const c w h hw hh]
  simp

/-! ## Edge-consistency extractor (`analyzeEdgeConsistency`)

Sobel gradients on one scalar channel (`V1` reads the red channel only —
"Just red channel for simplicity"; `V3` uses the 0.299/0.587/0.114
grayscale projection).  The interior double loop runs over
`1 ≤ y ≤ h-2`, `1 ≤ x ≤ w-2`. -/

def redAt (buf : PixelBuffer) (y x : ℕ) : ℚ := (buf.px y x).r

def grayAt (buf : PixelBuffer) (y x : ℕ) : ℚ :=
  0.299 * (buf.px y x).r + 0.587 * (buf.px y x).g + 0.114 * (buf.px y x).b

/-- Sobel Gx at `(y, x)` for `1 ≤ y`, `1 ≤ x`. -/
def sobelX (f : ℕ → ℕ → ℚ) (y x : ℕ) : ℚ :=
  -(f (y - 1) (x - 1)) + f (y - 1) (x + 1)
    - 2 * f y (x - 1) + 2 * f y (x + 1)
    - f (y + 1) (x - 1) + f (y + 1) (x + 1)

/-- Sobel Gy at `(y, x)` for `1 ≤ y`, `1 ≤ x`. -/
def sobelY (f : ℕ → ℕ → ℚ) (y x : ℕ) : ℚ :=
  -(f (y - 1) (x - 1)) - 2 * f (y - 1) x - f (y - 1) (x + 1)
    + f (y + 1) (x - 1) + 2 * f (y + 1) x + f (y + 1) (x + 1)

def interiorPix (w h : ℕ) : List (ℕ × ℕ) :=
  (List.range' 1 (h - 2)).flatMap fun y =>
    (List.range' 1 (w - 2)).map fun x => (y, x)

/-- The test `magnitude > 50` with `Math.sqrt` eliminated by squaring both sides. -/
def isEdgeV1 (buf : PixelBuffer) (y x : ℕ) : Bool :=
  decide ((sobelX (redAt buf) y x) ^ 2 + (sobelY (redAt buf) y x) ^ 2 > 2500)

/-- The angle test of `deepfakeDetector.ts` line 359:
`|atan2(sy,sx)| < π/4 ∨ |atan2(sy,sx)| > 3π/4`, which (for a nonzero
gradient) holds exactly when `|sy| < |sx|`. -/
def isConsistentDirV1 (buf : PixelBuffer) (y x : ℕ) : Bool :=
  decide (|sobelY (redAt buf) y x| < |sobelX (redAt buf) y x|)

def totalEdgesV1 (buf : PixelBuffer) : ℕ :=
  (interiorPix buf.width buf.height).countP fun yx => isEdgeV1 buf yx.1 yx.2

def consistentEdgesV1 (buf : PixelBuffer) : ℕ :=
  (interiorPix buf.width buf.height).countP
    fun yx => isEdgeV1 buf yx.1 yx.2 && isConsistentDirV1 buf yx.1 yx.2

/-- Variant V1, `deepfakeDetector.ts` lines 313–367:
`totalEdges > 0 ? (consistentEdges / totalEdges) * 100 : 50`. -/
def analyzeEdgeConsistencyV1 (buf : PixelBuffer) : ℚ :=
  if totalEdgesV1 buf > 0 then
    ((consistentEdgesV1 buf : ℚ) / (totalEdgesV1 buf : ℚ)) * 100
  else 50

def isEdgeV3 (buf : PixelBuffer) (y x : ℕ) : Bool :=
  decide ((sobelX (grayAt buf) y x) ^ 2 + (sobelY (grayAt buf) y x) ^ 2 > 2500)

def totalEdgesV3 (buf : PixelBuffer) : ℕ :=
  (interiorPix buf.width buf.height).countP fun yx => isEdgeV3 buf yx.1 yx.2

/-- The conservative variant increments `consistentEdges` on every detected
edge (`part_001` line 585), so the two counters coincide. -/
def consistentEdgesV3 (buf : PixelBuffer) : ℕ := totalEdgesV3 buf

/-- Conservative variant (`part_001` lines 543–592):
`totalEdges > 0 ? min(100, (consistentEdges/totalEdges)*100 + 10) : 85`. -/
def analyzeEdgeConsistencyV3 (buf : PixelBuffer) : ℚ :=
  if totalEdgesV3 buf > 0 then
    min 100 (((consistentEdgesV3 buf : ℚ) / (totalEdgesV3 buf : ℚ)) * 100 + 10)
  else 85

/-! ## Helper lemmas about the V1 image scorer's file-name rule -/

lemma kwDeepfake_append : kwDeepfake = "deep".data ++ kwFake := by decide

/-- A file name containing `"deepfake"` (after lower-casing) takes the
`+60` branch of the V1 keyword rule, because it contains `"fake"`. -/
lemma keywordBonusImageV1_of_deepfake {name : List Char}
    (h : containsSub (toLowerList name) kwDeepfake = true) :
    keywordBonusImageV1 name = 60 := by
  have hf : containsSub (toLowerList name) kwFake = true :=
    containsSub_append_right (kwDeepfake_append ▸ h)
  simp only [keywordBonusImageV1]
  rw [hf]
  simp

/-- A neutral file name (containing none of the V1 keywords) contributes
no bonus. -/
lemma keywordBonusImageV1_of_neutral {name : List Char}
    (h1 : containsSub (toLowerList name) kwFake = false)
    (h2 : containsSub (toLowerList name) kwGenerated = false)
    (h3 : containsSub (toLowerList name) kwAi = false)
    (h4 : containsSub (toLowerList name) kwReal = false)
    (h5 : containsSub (toLowerList name) kwAuthentic = false) :
    keywordBonusImageV1 name = 0 := by
  simp only [keywordBonusImageV1]
  rw [h1, h2, h3, h4, h5]
  simp

/-- With jitter disabled and no keyword rebate, every addend of the V1
image suspicion total is nonnegative. -/
lemma imageSuspicionV1_nonneg (sig : ImageSignals) (meta : FileMeta)
    (hkw : keywordBonusImageV1 meta.name = 0) :
    0 ≤ imageSuspicionV1 sig meta 0 false := by
  simp only [imageSuspicionV1, hkw]
  repeat' apply add_nonneg
  all_goals try split_ifs
  all_goals norm_num

/-- Changing only the file name shifts the V1 image suspicion total by
exactly the difference of the keyword bonuses. -/
lemma imageSuspicionV1_name_shift (sig : ImageSignals) (meta : FileMeta)
    (nm : List Char) (jb : ℚ) (jf : Bool) :
    imageSuspicionV1 sig { meta with name := nm } jb jf
      = imageSuspicionV1 sig meta jb jf
        - keywordBonusImageV1 meta.name + keywordBonusImageV1 nm := by
  simp only [imageSuspicionV1]
  ring

/-! ## Helper lemmas about the V2 and V3 image scorers' file-name rules -/

/-- A file name containing none of the keyword substrings searched by any of
the three image scorers (V1: fake/generated/ai/real/authentic; V2 adds
deepfake/synthetic/swap/original/genuine; V3 adds
morphed/manipulated/edited/photo/pic). -/
def isNeutralFileName (name : List Char) : Prop :=
  containsSub (toLowerList name) kwFake = false
  ∧ containsSub (toLowerList name) kwGenerated = false
  ∧ containsSub (toLowerList name) kwAi = false
  ∧ containsSub (toLowerList name) kwReal = false
  ∧ containsSub (toLowerList name) kwAuthentic = false
  ∧ containsSub (toLowerList name) kwDeepfake = false
  ∧ containsSub (toLowerList name) kwSynthetic = false
  ∧ containsSub (toLowerList name) kwSwap = false
  ∧ containsSub (toLowerList name) kwOriginal = false
  ∧ containsSub (toLowerList name) kwGenuine = false
  ∧ containsSub (toLowerList name) kwMorphed = false
  ∧ containsSub (toLowerList name) kwManipulated = false
  ∧ containsSub (toLowerList name) kwEdited = false
  ∧ containsSub (toLowerList name) kwPhoto = false
  ∧ containsSub (toLowerList name) kwPic = false

instance decIsNeutralFileName (name : List Char) :
    Decidable (isNeutralFileName name) := by
  unfold isNeutralFileName
  infer_instance

/-- A file name containing `"deepfake"` (after lower-casing) contains
`"fake"`, so it takes the `+85` branch of the V2 keyword rule. -/
lemma keywordBonusImageV2_of_deepfake {name : List Char}
    (h : containsSub (toLowerList name) kwDeepfake = true) :
    keywordBonusImageV2 name = 85 := by
  have hf : containsSub (toLowerList name) kwFake = true :=
    containsSub_append_right (kwDeepfake_append ▸ h)
  simp only [keywordBonusImageV2]
  rw [hf]
  simp

lemma keywordBonusImageV2_of_neutral {name : List Char}
    (hfk : containsSub (toLowerList name) kwFake = false)
    (hgen : containsSub (toLowerList name) kwGenerated = false)
    (hai : containsSub (toLowerList name) kwAi = false)
    (hdf : containsSub (toLowerList name) kwDeepfake = false)
    (hsyn : containsSub (toLowerList name) kwSynthetic = false)
    (hsw : containsSub (toLowerList name) kwSwap = false)
    (hre : containsSub (toLowerList name) kwReal = false)
    (hau : containsSub (toLowerList name) kwAuthentic = false)
    (hor : containsSub (toLowerList name) kwOriginal = false)
    (hgu : containsSub (toLowerList name) kwGenuine = false) :
    keywordBonusImageV2 name = 0 := by
  simp only [keywordBonusImageV2]
  rw [hfk, hgen, hai, hdf, hsyn, hsw, hre, hau, hor, hgu]
  simp

/-- A file name containing `"deepfake"` takes the `+70` chain branch of the
V3 keyword rule; the independent authenticity rebate subtracts at most 20,
so the V3 keyword bonus is at least 50. -/
lemma keywordBonusImageV3_of_deepfake_ge {name : List Char}
    (h : containsSub (toLowerList name) kwDeepfake = true) :
    50 ≤ keywordBonusImageV3 name := by
  simp only [keywordBonusImageV3]
  rw [h]
  simp only [Bool.true_or, if_true]
  split_ifs <;> norm_num

lemma keywordBonusImageV3_of_neutral {name : List Char}
    (hdf : containsSub (toLowerList name) kwDeepfake = false)
    (hfk : containsSub (toLowerList name) kwFake = false)
    (hgen : containsSub (toLowerList name) kwGenerated = false)
    (hmor : containsSub (toLowerList name) kwMorphed = false)
    (hman : containsSub (toLowerList name) kwManipulated = false)
    (hed : containsSub (toLowerList name) kwEdited = false)
    (hai : containsSub (toLowerList name) kwAi = false)
    (hsyn : containsSub (toLowerList name) kwSynthetic = false)
    (hre : containsSub (toLowerList name) kwReal = false)
    (hau : containsSub (toLowerList name) kwAuthentic = false)
    (hor : containsSub (toLowerList name) kwOriginal = false)
    (hgu : containsSub (toLowerList name) kwGenuine = false)
    (hph : containsSub (toLowerList name) kwPhoto = false)
    (hpc : containsSub (toLowerList name) kwPic = false) :
    keywordBonusImageV3 name = 0 := by
  simp only [keywordBonusImageV3]
  rw [hdf, hfk, hgen, hmor, hman, hed, hai, hsyn, hre, hau, hor, hgu, hph, hpc]
  simp

/-- With jitter disabled and no keyword contribution, every addend of the
V2 image suspicion total is nonnegative. -/
lemma imageSuspicionV2_nonneg (sig : ImageSignals) (meta : FileMeta)
    (hkw : keywordBonusImageV2 meta.name = 0) :
    0 ≤ imageSuspicionV2 sig meta 0 := by
  simp only [imageSuspicionV2, hkw]
  repeat' apply add_nonneg
  all_goals try split_ifs
  all_goals norm_num

/-- With jitter disabled and no keyword contribution, the V3 image
suspicion total is at least `15 − (10+15+10+5+5+5) = −35`: the base is 15,
the signal tiers are nonnegative, and the six normality rebates subtract at
most 50 in total. -/
lemma imageSuspicionV3_lower (sig : ImageSignals) (meta : FileMeta)
    (hkw : keywordBonusImageV3 meta.name = 0) :
    (-35 : ℚ) ≤ imageSuspicionV3 sig meta 0 := by
  simp only [imageSuspicionV3, hkw]
  calc (-35 : ℚ)
      = 15 + 0 + 0 + 0 + 0 + 0 + 0 + 0 + 0
        + (-10) + (-15) + (-10) + (-5) + (-5) + (-5) + 0 := by norm_num
    _ ≤ _ := by gcongr <;> split_ifs <;> norm_num

lemma imageSuspicionV2_name_shift (sig : ImageSignals) (meta : FileMeta)
    (nm : List Char) (jr : ℚ) :
    imageSuspicionV2 sig { meta with name := nm } jr
      = imageSuspicionV2 sig meta jr
        - keywordBonusImageV2 meta.name + keywordBonusImageV2 nm := by
  simp only [imageSuspicionV2]
  ring

lemma imageSuspicionV3_name_shift (sig : ImageSignals) (meta : FileMeta)
    (nm : List Char) (jr : ℚ) :
    imageSuspicionV3 sig { meta with name := nm } jr
      = imageSuspicionV3 sig meta jr
        - keywordBonusImageV3 meta.name + keywordBonusImageV3 nm := by
  simp only [imageSuspicionV3]
  ring

/-! ## Claim theorems -/

/-- Claim C1: for every analyzed asset (image or video) and every input
signal/metadata combination — in each of the three scorer variants — the
returned confidence lies in `[0, 100]`, because the scorer clamps its
accumulated suspicion total with `max(0, min(100, total))`. -/
theorem C1_confidence_clamped (sig : ImageSignals) (meta : FileMeta)
    (jb jr dur : ℚ) (jf : Bool) (framesJ : List (ImageSignals × ℚ))
    (frames : List ImageSignals) :
    (0 ≤ imageConfidenceV1 sig meta jb jf
      ∧ imageConfidenceV1 sig meta jb jf ≤ 100)
  ∧ (0 ≤ imageConfidenceV2 sig meta jr ∧ imageConfidenceV2 sig meta jr ≤ 100)
  ∧ (0 ≤ imageConfidenceV3 sig meta jr ∧ imageConfidenceV3 sig meta jr ≤ 100)
  ∧ (0 ≤ videoConfidenceV1 framesJ meta jb jf
      ∧ videoConfidenceV1 framesJ meta jb jf ≤ 100)
  ∧ (0 ≤ videoConfidenceV2 frames meta dur jr
      ∧ videoConfidenceV2 frames meta dur jr ≤ 100)
  ∧ (0 ≤ videoConfidenceV3 frames meta dur jr
      ∧ videoConfidenceV3 frames meta dur jr ≤ 100) :=
  ⟨⟨clampScore_nonneg _, clampScore_le_100 _⟩,
   ⟨clampScore_nonneg _, clampScore_le_100 _⟩,
   ⟨clampScore_nonneg _, clampScore_le_100 _⟩,
   ⟨clampScore_nonneg _, clampScore_le_100 _⟩,
   ⟨clampScore_nonneg _, clampScore_le_100 _⟩,
   ⟨clampScore_nonneg _, clampScore_le_100 _⟩⟩

/-- Claim C2: for each of the three `calculateThreatLevel` variants, with the
`analysis` argument held fixed, a higher confidence never yields a strictly
lower threat level in the order LOW < MEDIUM < HIGH < CRITICAL. -/
theorem C2_threatLevel_monotone (a : DetectionAnalysis) (c₁ c₂ : ℚ)
    (h : c₁ ≤ c₂) :
    threatRank (calculateThreatLevelV1 c₁ a)
      ≤ threatRank (calculateThreatLevelV1 c₂ a)
  ∧ threatRank (calculateThreatLevelV2 c₁ a)
      ≤ threatRank (calculateThreatLevelV2 c₂ a)
  ∧ threatRank (calculateThreatLevelV3 c₁ a)
      ≤ threatRank (calculateThreatLevelV3 c₂ a) :=
  ⟨threatLevelV1_mono h, threatLevelV2_mono h, threatLevelV3_mono h⟩

/-- Witness for C2 at confidence pair `(55, 80)` and artifact score `75`. -/
theorem C2_threatLevel_monotone_witness :
    (55 : ℚ) ≤ 80
  ∧ threatRank (calculateThreatLevelV1 55 ⟨0, 0, 75, 0, 0⟩)
      ≤ threatRank (calculateThreatLevelV1 80 ⟨0, 0, 75, 0, 0⟩)
  ∧ threatRank (calculateThreatLevelV2 55 ⟨0, 0, 75, 0, 0⟩)
      ≤ threatRank (calculateThreatLevelV2 80 ⟨0, 0, 75, 0, 0⟩)
  ∧ threatRank (calculateThreatLevelV3 55 ⟨0, 0, 75, 0, 0⟩)
      ≤ threatRank (calculateThreatLevelV3 80 ⟨0, 0, 75, 0, 0⟩) :=
  ⟨by norm_num,
   (C2_threatLevel_monotone ⟨0, 0, 75, 0, 0⟩ 55 80 (by norm_num)).1,
   (C2_threatLevel_monotone ⟨0, 0, 75, 0, 0⟩ 55 80 (by norm_num)).2.1,
   (C2_threatLevel_monotone ⟨0, 0, 75, 0, 0⟩ 55 80 (by norm_num)).2.2⟩

/-- Concrete inputs refuting C3 as stated: strong artifact/edge signals
already saturate the clamp. -/
def cexSignalsC3 : ImageSignals := ⟨50, 90, 60, 0, 40, 100, 0⟩

def cexMetaNeutralC3 : FileMeta := ⟨"img_0001.jpg".data, 1048576, 512, 512⟩

def cexMetaDeepfakeC3 : FileMeta := ⟨"deepfake.png".data, 1048576, 512, 512⟩

/-- Counterexample to C3 as stated: with jitter disabled and identical
signals (artifact 90, edge 40: 45+25+40+30 = 140 pre-clamp), the neutral
call already clamps to 100, so the `"deepfake"`-named call — clamped from
200 — is *equal*, not strictly greater. -/
theorem C3_counterexample :
    imageConfidenceV1 cexSignalsC3 cexMetaDeepfakeC3 0 false = 100
  ∧ imageConfidenceV1 cexSignalsC3 cexMetaNeutralC3 0 false = 100
  ∧ ¬ (imageConfidenceV1 cexSignalsC3 cexMetaNeutralC3 0 false
        < imageConfidenceV1 cexSignalsC3 cexMetaDeepfakeC3 0 false) := by
  have hkwN : keywordBonusImageV1 cexMetaNeutralC3.name = 0 :=
    keywordBonusImageV1_of_neutral (by decide) (by decide) (by decide)
      (by decide) (by decide)
  have hkwD : keywordBonusImageV1 cexMetaDeepfakeC3.name = 60 :=
    keywordBonusImageV1_of_deepfake (by decide)
  have e1 : imageSuspicionV1 cexSignalsC3 cexMetaNeutralC3 0 false = 140 := by
    unfold imageSuspicionV1
    rw [hkwN]
    simp only [cexSignalsC3, cexMetaNeutralC3]
    norm_num
  have e2 : imageSuspicionV1 cexSignalsC3 cexMetaDeepfakeC3 0 false = 200 := by
    unfold imageSuspicionV1
    rw [hkwD]
    simp only [cexSignalsC3, cexMetaDeepfakeC3]
    norm_num
  have c1 : imageConfidenceV1 cexSignalsC3 cexMetaNeutralC3 0 false = 100 := by
    unfold imageConfidenceV1 clampScore
    rw [e1]
    norm_num [max_def, min_def]
  have c2 : imageConfidenceV1 cexSignalsC3 cexMetaDeepfakeC3 0 false = 100 := by
    unfold imageConfidenceV1 clampScore
    rw [e2]
    norm_num [max_def, min_def]
  refine ⟨c2, c1, ?_⟩
  rw [c1, c2]
  exact lt_irrefl _

/-- Claim C3 (amended): with random jitter disabled and all signals and
metadata held equal, in each of the three image scorers a call whose file
name contains `"deepfake"` (case-insensitive) produces a confidence at
least as great as an otherwise identical call with a neutral file name
(one containing none of the scorers' keyword substrings), and strictly
greater whenever the neutral call's accumulated suspicion total is below
100 (so that the final clamp is not saturated). -/
theorem C3_amended (sig : ImageSignals) (meta : FileMeta) (nameDf : List Char)
    (hdf : containsSub (toLowerList nameDf) kwDeepfake = true)
    (hn : isNeutralFileName meta.name) :
    (imageConfidenceV1 sig meta 0 false
        ≤ imageConfidenceV1 sig { meta with name := nameDf } 0 false
      ∧ (imageSuspicionV1 sig meta 0 false < 100 →
          imageConfidenceV1 sig meta 0 false
            < imageConfidenceV1 sig { meta with name := nameDf } 0 false))
  ∧ (imageConfidenceV2 sig meta 0
        ≤ imageConfidenceV2 sig { meta with name := nameDf } 0
      ∧ (imageSuspicionV2 sig meta 0 < 100 →
          imageConfidenceV2 sig meta 0
            < imageConfidenceV2 sig { meta with name := nameDf } 0))
  ∧ (imageConfidenceV3 sig meta 0
        ≤ imageConfidenceV3 sig { meta with name := nameDf } 0
      ∧ (imageSuspicionV3 sig meta 0 < 100 →
          imageConfidenceV3 sig meta 0
            < imageConfidenceV3 sig { meta with name := nameDf } 0)) := by
  obtain ⟨hfk, hgen, hai, hre, hau, hdfn, hsyn, hsw, hor, hgu, hmor, hman,
    hed, hph, hpc⟩ := hn
  have hkw0 : keywordBonusImageV1 meta.name = 0 :=
    keywordBonusImageV1_of_neutral hfk hgen hai hre hau
  have hkw60 : keywordBonusImageV1 nameDf = 60 :=
    keywordBonusImageV1_of_deepfake hdf
  have heq1 : imageSuspicionV1 sig { meta with name := nameDf } 0 false
      = imageSuspicionV1 sig meta 0 false + 60 := by
    rw [imageSuspicionV1_name_shift, hkw0, hkw60]
    ring
  have hnn1 : 0 ≤ imageSuspicionV1 sig meta 0 false :=
    imageSuspicionV1_nonneg sig meta hkw0
  have hkw0₂ : keywordBonusImageV2 meta.name = 0 :=
    keywordBonusImageV2_of_neutral hfk hgen hai hdfn hsyn hsw hre hau hor hgu
  have hkw85 : keywordBonusImageV2 nameDf = 85 :=
    keywordBonusImageV2_of_deepfake hdf
  have heq2 : imageSuspicionV2 sig { meta with name := nameDf } 0
      = imageSuspicionV2 sig meta 0 + 85 := by
    rw [imageSuspicionV2_name_shift, hkw0₂, hkw85]
    ring
  have hnn2 : 0 ≤ imageSuspicionV2 sig meta 0 :=
    imageSuspicionV2_nonneg sig meta hkw0₂
  have hkw0₃ : keywordBonusImageV3 meta.name = 0 :=
    keywordBonusImageV3_of_neutral hdfn hfk hgen hmor hman hed hai hsyn
      hre hau hor hgu hph hpc
  have hge50 : 50 ≤ keywordBonusImageV3 nameDf :=
    keywordBonusImageV3_of_deepfake_ge hdf
  have heq3 : imageSuspicionV3 sig { meta with name := nameDf } 0
      = imageSuspicionV3 sig meta 0 + keywordBonusImageV3 nameDf := by
    rw [imageSuspicionV3_name_shift, hkw0₃]
    ring
  have hlo3 : (-35 : ℚ) ≤ imageSuspicionV3 sig meta 0 :=
    imageSuspicionV3_lower sig meta hkw0₃
  refine ⟨⟨?_, ?_⟩, ⟨?_, ?_⟩, ⟨?_, ?_⟩⟩
  · unfold imageConfidenceV1
    rw [heq1]
    exact clampScore_mono (by linarith)
  · intro hlt
    unfold imageConfidenceV1
    rw [heq1]
    exact clampScore_lt_of_pos hlt (by norm_num) (by linarith)
  · unfold imageConfidenceV2
    rw [heq2]
    exact clampScore_mono (by linarith)
  · intro hlt
    unfold imageConfidenceV2
    rw [heq2]
    exact clampScore_lt_of_pos hlt (by norm_num) (by linarith)
  · unfold imageConfidenceV3
    rw [heq3]
    exact clampScore_mono (by linarith)
  · intro hlt
    unfold imageConfidenceV3
    rw [heq3]
    exact clampScore_lt_of_pos hlt (by linarith) (by linarith)

/-- Witness inputs for the amended C3: unremarkable signals, so all three
pre-clamp totals stay below 100 and the `"deepfake"` bonus is visible. -/
def witSignalsC3 : ImageSignals := ⟨50, 0, 60, 0, 80, 100, 0⟩

def witMetaNeutralC3 : FileMeta := ⟨"img_0001.jpg".data, 1048576, 512, 512⟩

theorem C3_amended_witness :
    containsSub (toLowerList "deepfake.png".data) kwDeepfake = true
  ∧ isNeutralFileName witMetaNeutralC3.name
  ∧ (imageConfidenceV1 witSignalsC3 witMetaNeutralC3 0 false
      < imageConfidenceV1 witSignalsC3
          { witMetaNeutralC3 with name := "deepfake.png".data } 0 false)
  ∧ (imageConfidenceV2 witSignalsC3 witMetaNeutralC3 0
      < imageConfidenceV2 witSignalsC3
          { witMetaNeutralC3 with name := "deepfake.png".data } 0)
  ∧ (imageConfidenceV3 witSignalsC3 witMetaNeutralC3 0
      < imageConfidenceV3 witSignalsC3
          { witMetaNeutralC3 with name := "deepfake.png".data } 0) := by
  have hdf : containsSub (toLowerList "deepfake.png".data) kwDeepfake = true :=
    by decide
  have hn : isNeutralFileName witMetaNeutralC3.name := by decide
  have happ := C3_amended witSignalsC3 witMetaNeutralC3 "deepfake.png".data
    hdf hn
  have hkw1 : keywordBonusImageV1 witMetaNeutralC3.name = 0 :=
    keywordBonusImageV1_of_neutral (by decide) (by decide) (by decide)
      (by decide) (by decide)
  have e1 : imageSuspicionV1 witSignalsC3 witMetaNeutralC3 0 false = 0 := by
    unfold imageSuspicionV1
    rw [hkw1]
    simp only [witSignalsC3, witMetaNeutralC3]
    norm_num
  have hkw2 : keywordBonusImageV2 witMetaNeutralC3.name = 0 :=
    keywordBonusImageV2_of_neutral (by decide) (by decide) (by decide)
      (by decide) (by decide) (by decide) (by decide) (by decide)
      (by decide) (by decide)
  have e2 : imageSuspicionV2 witSignalsC3 witMetaNeutralC3 0 = 0 := by
    unfold imageSuspicionV2
    rw [hkw2]
    simp only [witSignalsC3, witMetaNeutralC3]
    norm_num
  have hkw3 : keywordBonusImageV3 witMetaNeutralC3.name = 0 :=
    keywordBonusImageV3_of_neutral (by decide) (by decide) (by decide)
      (by decide) (by decide) (by decide) (by decide) (by decide)
      (by decide) (by decide) (by decide) (by decide) (by decide) (by decide)
  have e3 : imageSuspicionV3 witSignalsC3 witMetaNeutralC3 0 = -25 := by
    unfold imageSuspicionV3 anomalyCountV3
    rw [hkw3]
    simp only [witSignalsC3, witMetaNeutralC3]
    norm_num
  exact ⟨hdf, hn,
    happ.1.2 (by rw [e1]; norm_num),
    happ.2.1.2 (by rw [e2]; norm_num),
    happ.2.2.2 (by rw [e3]; norm_num)⟩

/-- Claim C4: with the models ready, the detection entry point (both
embedded variants) fails with the unsupported-type error if and only if the
declared media type starts with neither `"image/"` nor `"video/"`; in
particular, for every `image/*` or `video/*` asset the unsupported-type
branch is not taken, and for every other declared type the call yields the
error and no `DeepfakeDetectionResult`. -/
theorem C4_unsupported_type_iff (f : MediaFile) (jb jr : ℚ) (jf : Bool) :
    (detectDeepfakeV1 true f jb jf = .error .unsupportedType
      ↔ ¬(listPrefixOf imageTypeKw f.ftype = true
          ∨ listPrefixOf videoTypeKw f.ftype = true))
  ∧ (detectDeepfakeV2 true f jr = .error .unsupportedType
      ↔ ¬(listPrefixOf imageTypeKw f.ftype = true
          ∨ listPrefixOf videoTypeKw f.ftype = true)) := by
  constructor
  · unfold detectDeepfakeV1
    by_cases hi : listPrefixOf imageTypeKw f.ftype = true
    · cases hs : f.imageSignals <;> simp [hi, hs]
    · by_cases hv : listPrefixOf videoTypeKw f.ftype = true
      · cases hs : f.videoFrames <;> simp [hi, hv, hs]
      · simp [hi, hv]
  · unfold detectDeepfakeV2
    by_cases hi : listPrefixOf imageTypeKw f.ftype = true
    · cases hs : f.imageSignals <;> simp [hi, hs]
    · by_cases hv : listPrefixOf videoTypeKw f.ftype = true
      · cases hs : f.videoFrames <;> simp [hi, hv, hs]
      · simp [hi, hv]

/-- Claim C5: a single-frame sequence yields the configured neutral
temporal-consistency default (100 in `V1`, 90 in the conservative variant),
with no frame pair compared. -/
theorem C5_single_frame_neutral (a : DetectionAnalysis) :
    calculateTemporalConsistencyV1 [a] = 100
  ∧ calculateTemporalConsistencyV3 [a] = 90 := by
  constructor <;> rfl

/-- Buffer whose every pixel is skin-toned for the HSV heuristic but for
neither the RGB nor the YCbCr heuristic (Cr ≈ 131.8 < 133, |R−G| = 5 ≤ 15). -/
def hsvBufC6 : PixelBuffer := ⟨2, 2, fun _ _ => ⟨90, 85, 69⟩⟩

/-- Counterexample to C6 as stated: on `hsvBufC6` the extractor returns 100,
yet the claim's spec-side count — skin-toned by the RGB heuristic OR the
YCbCr heuristic — is 0, so `min(100, skinPixels/regionPixels × k)` is 0 for
every scale `k` (in particular for k = 150 and k = 200). -/
theorem C6_counterexample :
    performFaceAnalysisV2 hsvBufC6 = 100
  ∧ specSkinCount hsvBufC6 = 0
  ∧ specFaceSkinScore 150 hsvBufC6 = 0
  ∧ specFaceSkinScore 200 hsvBufC6 = 0 := by
  have hpl : pixList 2 2 = [(0, 0), (0, 1), (1, 0), (1, 1)] := by decide
  have hf00 : inFaceRegion 2 2 0 0 = false := by
    simp only [inFaceRegion, decide_eq_false_iff_not]
    norm_num [min_self]
  have hf01 : inFaceRegion 2 2 0 1 = false := by
    simp only [inFaceRegion, decide_eq_false_iff_not]
    norm_num [min_self]
  have hf10 : inFaceRegion 2 2 1 0 = false := by
    simp only [inFaceRegion, decide_eq_false_iff_not]
    norm_num [min_self]
  have hf11 : inFaceRegion 2 2 1 1 = true := by
    simp only [inFaceRegion, decide_eq_true_eq]
    norm_num [min_self]
  have hrgb : rgbSkin ⟨90, 85, 69⟩ = false := by
    simp only [rgbSkin, decide_eq_false_iff_not]
    intro h
    exact absurd h.1 (by norm_num)
  have hcr : ycbcrSkin ⟨90, 85, 69⟩ = false := by
    simp only [ycbcrSkin, decide_eq_false_iff_not]
    intro h
    have h3 := h.2.2.1
    norm_num at h3
  have hsv : hsvSkin ⟨90, 85, 69⟩ = true := by
    simp only [hsvSkin, decide_eq_true_eq]
    norm_num [max_def, min_def]
  have hskin : isSkinToneV2 ⟨90, 85, 69⟩ = true := by
    simp [isSkinToneV2, hsv]
  have hrc : regionCount hsvBufC6 = 1 := by
    simp [regionCount, hsvBufC6, hpl, List.countP_cons, List.countP_nil,
      hf00, hf01, hf10, hf11]
  have hsc : skinCountV2 hsvBufC6 = 1 := by
    simp [skinCountV2, hsvBufC6, hpl, List.countP_cons, List.countP_nil,
      hf00, hf01, hf10, hf11, hskin]
  have hspec : specSkinCount hsvBufC6 = 0 := by
    simp [specSkinCount, hsvBufC6, hpl, List.countP_cons, List.countP_nil,
      hf00, hf01, hf10, hf11, hrgb, hcr]
  refine ⟨?_, hspec, ?_, ?_⟩
  · simp only [performFaceAnalysisV2, faceCountsV2_eq, hrc, hsc]
    norm_num [min_def]
  · simp only [specFaceSkinScore, hrc, hspec]
    norm_num [min_def]
  · simp only [specFaceSkinScore, hrc, hspec]
    norm_num [min_def]

/-- Claim C6 (amended): restricted to the circular region of radius
`min(width,height)/4` centered in the frame, the extractor returns exactly
`min(100, skinPixels/regionPixels × 200)` (scale k = 200), where
`skinPixels` counts region pixels classified skin-toned by the RGB
heuristic OR the YCbCr-range heuristic OR the HSV heuristic; a region with
zero such pixels yields 0. -/
theorem C6_amended (buf : PixelBuffer) :
    performFaceAnalysisV2 buf
      = min 100 ((if regionCount buf > 0
          then (skinCountV2 buf : ℚ) / (regionCount buf : ℚ) else 0) * 200)
  ∧ (skinCountV2 buf = 0 → performFaceAnalysisV2 buf = 0) := by
  have h := faceCountsV2_eq buf
  constructor
  · simp only [performFaceAnalysisV2, h]
  · intro h0
    simp only [performFaceAnalysisV2, h, h0]
    split_ifs <;> simp

/-- Witness for the amended C6 on a 1×1 black buffer (its face region is
empty, so both counts are 0 and the score is 0). -/
def tinyBufC6 : PixelBuffer := ⟨1, 1, fun _ _ => ⟨0, 0, 0⟩⟩

theorem C6_amended_witness :
    skinCountV2 tinyBufC6 = 0 ∧ performFaceAnalysisV2 tinyBufC6 = 0 := by
  have hpl : pixList 1 1 = [(0, 0)] := by decide
  have hf : inFaceRegion 1 1 0 0 = false := by
    simp only [inFaceRegion, decide_eq_false_iff_not]
    norm_num [min_self]
  have hsk : skinCountV2 tinyBufC6 = 0 := by
    simp [skinCountV2, tinyBufC6, hpl, List.countP_cons, List.countP_nil, hf]
  exact ⟨hsk, (C6_amended tinyBufC6).2 hsk⟩

/-- Counterexample to C7 as stated: for a zero-duration video the sampling
interval is 0 and all five captures happen at timestamp 0 — the same
timestamp is captured repeatedly and the sequence is not strictly
chronological. -/
theorem C7_counterexample :
    extractFrameTimes 0 5 = [0, 0, 0, 0, 0]
  ∧ ¬ (extractFrameTimes 0 5).Nodup := by
  have h1 : extractFrameTimes 0 5 = [0, 0, 0, 0, 0] := by
    unfold extractFrameTimes
    rw [extractLoop_eq]
    have hfun : (fun k : ℕ => (0 : ℚ) + (k : ℚ) * (0 / ((5 : ℕ) : ℚ)))
        = fun _ : ℕ => (0 : ℚ) := by
      funext k
      norm_num
    rw [hfun]
    rfl
  refine ⟨h1, ?_⟩
  rw [h1]
  decide

/-- Claim C7 (amended): for every video of *positive* duration `d` and
frame count `N ≥ 1`, the sampling loop captures exactly `N` frames at the
evenly spaced timestamps `i·(d/N)` for `i = 0, …, N−1`, in strictly
chronological order (hence never the same timestamp twice). -/
theorem C7_amended (d : ℚ) (N : ℕ) (hd : 0 < d) (hN : 1 ≤ N) :
    extractFrameTimes d N
      = (List.range N).map (fun i : ℕ => (i : ℚ) * (d / (N : ℚ)))
  ∧ (extractFrameTimes d N).length = N
  ∧ List.Chain' (· < ·) (extractFrameTimes d N) := by
  have hNq : (0 : ℚ) < (N : ℚ) := by exact_mod_cast Nat.lt_of_lt_of_le Nat.zero_lt_one hN
  have hi : 0 < d / (N : ℚ) := div_pos hd hNq
  have hsub : N - 1 + 1 = N := by omega
  have he : extractFrameTimes d N
      = (List.range N).map (fun k : ℕ => 0 + (k : ℚ) * (d / (N : ℚ))) := by
    unfold extractFrameTimes
    rw [extractLoop_eq, hsub]
  refine ⟨?_, ?_, ?_⟩
  · rw [he]
    apply List.map_congr_left
    intro k _
    ring
  · rw [he, List.length_map, List.length_range]
  · unfold extractFrameTimes
    exact extractLoop_chain hi _ _

theorem C7_amended_witness :
    (0 : ℚ) < 10 ∧ 1 ≤ 5
  ∧ extractFrameTimes 10 5
      = (List.range 5).map (fun i : ℕ => (i : ℚ) * (10 / (5 : ℚ)))
  ∧ (extractFrameTimes 10 5).length = 5
  ∧ List.Chain' (· < ·) (extractFrameTimes 10 5) :=
  ⟨by norm_num, by norm_num,
   (C7_amended 10 5 (by norm_num) (by norm_num)).1,
   (C7_amended 10 5 (by norm_num) (by norm_num)).2.1,
   (C7_amended 10 5 (by norm_num) (by norm_num)).2.2⟩

/-- Claim C8: for every buffer of positive dimensions filled with a single
uniform color, all four quadrant means are equal, the average pairwise
difference is 0, and the color-consistency extractor returns exactly 100
(both embedded variants). -/
theorem C8_uniform_color_consistency (w h : ℕ) (c : Rgb)
    (hw : 1 ≤ w) (hh : 1 ≤ h) :
    analyzeColorConsistencyV2 ⟨w, h, fun _ _ => c⟩ = 100
  ∧ analyzeColorConsistencyV3 ⟨w, h, fun _ _ => c⟩ = 100 := by
  have h0 := analyzeColorConsistency_const c w h hw hh
  constructor
  · unfold analyzeColorConsistencyV2
    rw [h0]
    norm_num [max_def]
  · unfold analyzeColorConsistencyV3
    rw [h0]
    norm_num [max_def]

theorem C8_uniform_witness :
    1 ≤ 2 ∧ 1 ≤ 3
  ∧ analyzeColorConsistencyV2 ⟨2, 3, fun _ _ => ⟨128, 128, 128⟩⟩ = 100
  ∧ analyzeColorConsistencyV3 ⟨2, 3, fun _ _ => ⟨128, 128, 128⟩⟩ = 100 :=
  ⟨by norm_num, by norm_num,
   (C8_uniform_color_consistency 2 3 ⟨128, 128, 128⟩ (by norm_num)
      (by norm_num)).1,
   (C8_uniform_color_consistency 2 3 ⟨128, 128, 128⟩ (by norm_num)
      (by norm_num)).2⟩

/-- Claim C9: whenever no edge pixel is detected — in particular on a
degenerate 1×1 buffer, where the interior scan is empty — the
edge-consistency extractor returns its neutral fallback constant (50 in
`V1`, 85 in the conservative variant) instead of dividing by zero. -/
theorem C9_no_edges_fallback (buf : PixelBuffer)
    (h1 : totalEdgesV1 buf = 0) (h3 : totalEdgesV3 buf = 0) :
    analyzeEdgeConsistencyV1 buf = 50 ∧ analyzeEdgeConsistencyV3 buf = 85 := by
  constructor
  · simp [analyzeEdgeConsistencyV1, h1]
  · simp [analyzeEdgeConsistencyV3, h3]

def tinyBufC9 : PixelBuffer := ⟨1, 1, fun _ _ => ⟨0, 0, 0⟩⟩

theorem C9_no_edges_witness :
    totalEdgesV1 tinyBufC9 = 0 ∧ totalEdgesV3 tinyBufC9 = 0
  ∧ analyzeEdgeConsistencyV1 tinyBufC9 = 50
  ∧ analyzeEdgeConsistencyV3 tinyBufC9 = 85 :=
  ⟨by decide, by decide,
   (C9_no_edges_fallback tinyBufC9 (by decide) (by decide)).1,
   (C9_no_edges_fallback tinyBufC9 (by decide) (by decide)).2⟩

/-- Claim C10: every asset analyzed through the image path gets an analysis
record with `temporalConsistency` exactly 100, regardless of signals,
file name, metadata or jitter (all three variants hard-code
`temporalConsistency: 100` in the image analysis). -/
theorem C10_image_temporal_100 (sig : ImageSignals) (meta : FileMeta)
    (jb jr : ℚ) (jf : Bool) :
    (analyzeImageV1 sig meta jb jf).2.temporalConsistency = 100
  ∧ (analyzeImageV2 sig meta jr).2.temporalConsistency = 100
  ∧ (analyzeImageV3 sig meta jr).2.temporalConsistency = 100 :=
  ⟨rfl, rfl, rfl⟩

end DeepfakeRefine
